import Mathlib

/-!
Shallow embedding of `Contents/Libraries/Shared/subliminal_patch/refiners/drone.py`
(Sub-Zero.bundle): the Sonarr/Radarr "drone" refiner.  Python objects become Lean
structures, attribute values that may be `None` become `Option`, the mutable
`video` object is threaded through functions explicitly, and HTTP responses are
supplied through an environment record.  External collaborators (the guessit
heuristic, the REMOVE_CRAP_FROM_FILENAME regex, the URL-join helper and the
dogpile cache backend) are modelled as function parameters or, where the spec
pins down their contract, as spec-modelled definitions.
-/

namespace Drone

/-- Python truthiness of an optional integer attribute (`None` and `0` are falsy),
as in `if not found_show_id` and `video.series_tvdb_id and ...`. -/
def pyTruthyNat : Option Nat → Bool
  | none => false
  | some n => n ≠ 0

/-- Python truthiness of an optional string attribute (`None` and `""` are falsy),
as in `if scene_name:` and `not video.release_group`. -/
def pyTruthyStr : Option String → Bool
  | none => false
  | some s => s ≠ ""

/-- Keep an optional string only when it is Python-truthy. -/
def truthyOpt (o : Option String) : Option String :=
  match o with
  | some s => if s = "" then none else some s
  | none => none

/-- The media type of a video object: `type(video)` in the dispatcher.
`other` stands for any class that is neither `Episode` nor `Movie`. -/
inductive VideoType
  | episode
  | movie
  | other
  deriving DecidableEq, Repr

/-- The video record refined by the module.  Fields the code reads or writes;
attributes that may be `None` in Python are `Option`s. -/
structure Video where
  vtype : VideoType
  name : String
  series : Option String := none
  season : Option Int := none
  episode : Option Int := none
  title : Option String := none
  series_tvdb_id : Option Nat := none
  imdb_id : Option String := none
  release_group : Option String := none
  fmt : Option String := none
  original_name : Option String := none
  deriving DecidableEq, Repr

/-- A series record returned by Sonarr's `/series` endpoint: the fields
`get_show_id` reads (`title`, `id`, optional key `tvdbId`). -/
structure SonarrSeries where
  id : Nat
  title : String
  tvdbId : Option Nat := none
  deriving DecidableEq, Repr

/-- The predicate `is_correct_show` inside `SonarrClient.get_show_id`:
`s["title"] == video.series or (video.series_tvdb_id and "tvdbId" in s and
s["tvdbId"] == video.series_tvdb_id)`. -/
def is_correct_show (video : Video) (s : SonarrSeries) : Bool :=
  some s.title = video.series ||
    (pyTruthyNat video.series_tvdb_id &&
      match s.tvdbId with
      | some t => some t = video.series_tvdb_id
      | none => false)

/-- The `for show in ...: if is_correct_show(show): return show["id"]` loop. -/
def scanShows (video : Video) : List SonarrSeries → Option Nat
  | [] => none
  | s :: rest => if is_correct_show video s then some s.id else scanShows video rest

/-- The lookup `SonarrClient.get_show_id`: scan the cached series list; on a miss refresh
the cache and scan the refreshed list; falling through returns `None`.
`cached` is the list produced by `get_all_series()` and `refreshed` the list
produced by `get_all_series.refresh()`. -/
def get_show_id (video : Video) (cached refreshed : List SonarrSeries) : Option Nat :=
  match scanShows video cached with
  | some i => some i
  | none => scanShows video refreshed

/-- The `movieFile` sub-dictionary of a Radarr movie record. -/
structure MovieFile where
  relativePath : Option String := none
  sceneName : Option String := none
  releaseGroup : Option String := none
  deriving DecidableEq, Repr

/-- The access `movie.get("movieFile", \x7b\x7d)` falls back to an empty dictionary. -/
def MovieFile.empty : MovieFile := {}

/-- A movie record returned by Radarr's `/movie` endpoint: the fields
`get_movie` and `get_additional_data` read. -/
structure MovieRec where
  title : String
  imdbId : Option String := none
  movieFile : Option MovieFile := none
  deriving DecidableEq, Repr

/-- Python `os.path.basename`: the part of the path after the last slash. -/
def basename (p : String) : String :=
  String.mk ((p.toList.reverse.takeWhile (fun c => c ≠ '/')).reverse)

/-- The predicate `is_correct_movie` inside `RadarrClient.get_movie`:
`m["title"] == video.title or (video.imdb_id and "imdbId" in m and
m["imdbId"] == video.imdb_id) or movie_file.get("relativePath") == movie_fn`
where `movie_fn = os.path.basename(video.name)`. -/
def is_correct_movie (video : Video) (m : MovieRec) : Bool :=
  some m.title = video.title ||
    (pyTruthyStr video.imdb_id &&
      match m.imdbId with
      | some mi => some mi = video.imdb_id
      | none => false) ||
    (m.movieFile.getD MovieFile.empty).relativePath = some (basename video.name)

/-- The `for movie in ...: if is_correct_movie(movie): return movie` loop. -/
def scanMovies (video : Video) : List MovieRec → Option MovieRec
  | [] => none
  | m :: rest => if is_correct_movie video m then some m else scanMovies video rest

/-- The lookup `RadarrClient.get_movie`: scan the cached movie list; on a miss refresh the
cache and scan the refreshed list; falling through returns `None`. -/
def get_movie (video : Video) (cached refreshed : List MovieRec) : Option MovieRec :=
  match scanMovies video cached with
  | some m => some m
  | none => scanMovies video refreshed

/-- The extension part of `os.path.splitext` (posixpath): nonempty exactly when
the last dot lies after the last slash and a non-dot character precedes it
within the basename; the extension starts at that last dot. -/
def splitextExt (p : String) : String :=
  let b := (basename p).toList
  if (b.dropWhile (fun c => c = '.')).contains '.' then
    String.mk ('.' :: (b.reverse.takeWhile (fun c => c ≠ '.')).reverse)
  else ""

/-- The result of the external guessit call, restricted to the keys the module
reads (`_fill_attrs = ("release_group", "format")`); a `some` field models the
key being present in the guess dictionary.  `fmt` models the `format` key. -/
structure Guess where
  release_group : Option String := none
  fmt : Option String := none
  deriving DecidableEq, Repr

/-- Shared body of `SonarrClient.get_guess` and `RadarrClient.get_guess`: append the video's file
extension to the scene name, strip it with `REMOVE_CRAP_FROM_FILENAME.sub("", .)`
(the `removeCrap` parameter), and run guessit (the `guessFn` parameter; the two
clients differ only in the hints baked into it). -/
def get_guess (guessFn : String → Guess) (removeCrap : String → String)
    (videoName scene_name : String) : String × Guess :=
  let gf := removeCrap (scene_name ++ splitextExt videoName)
  (gf, guessFn gf)

/-- The method `DroneAPIClient.update_video`: for each attribute in `_fill_attrs`
(`release_group`, then `format`), set it on the video when present in the
guess; finally set `video.original_name` to the cleaned scene filename. -/
def update_video (guessFn : String → Guess) (removeCrap : String → String)
    (video : Video) (scene_name : String) : Video :=
  let sg := get_guess guessFn removeCrap video.name scene_name
  let v1 := match sg.2.release_group with
    | some g => { video with release_group := some g }
    | none => video
  let v2 := match sg.2.fmt with
    | some f => { v1 with fmt := some f }
    | none => v1
  { v2 with original_name := some sg.1 }

/-- The `episodeFile` sub-dictionary of a Sonarr episode record. -/
structure EpisodeFile where
  sceneName : Option String := none
  deriving DecidableEq, Repr

/-- An episode record returned by Sonarr's `/episode` endpoint: the fields
`SonarrClient.get_additional_data` reads. -/
structure EpisodeRec where
  seasonNumber : Int
  episodeNumber : Int
  episodeFile : Option EpisodeFile := none
  deriving DecidableEq, Repr

/-- The dictionary returned by `get_additional_data`: a `some` field models the
key being present.  Both keys are only ever inserted with truthy values. -/
structure AdditionalData where
  scene_name : Option String := none
  release_group : Option String := none
  deriving DecidableEq, Repr

/-- The episode loop of `SonarrClient.get_additional_data`: on the first episode
whose season and episode numbers match, return its truthy `sceneName` as
additional data, or nothing at all when it has none; keep scanning otherwise. -/
def findEpisodeScene (video : Video) : List EpisodeRec → Option AdditionalData
  | [] => none
  | e :: rest =>
    if some e.seasonNumber = video.season && some e.episodeNumber = video.episode then
      match truthyOpt (e.episodeFile.getD {}).sceneName with
      | some s => some { scene_name := some s }
      | none => none
    else findEpisodeScene video rest

/-- The data Sonarr-side lookups need: the cached and refreshed `/series` lists
and the `/episode?seriesId=` responses. -/
structure SonarrEnv where
  cached : List SonarrSeries
  refreshed : List SonarrSeries
  episodes : Nat → List EpisodeRec

/-- The method `SonarrClient.get_additional_data`: bail out when `series`, `season` or
`episode` is `None`; bail out when the show id lookup yields a falsy value;
otherwise scan the episode list for the scene name. -/
def sonarr_get_additional_data (env : SonarrEnv) (video : Video) :
    Option AdditionalData :=
  if video.series.isNone || video.season.isNone || video.episode.isNone then none
  else
    match get_show_id video env.cached env.refreshed with
    | none => none
    | some i => if i = 0 then none else findEpisodeScene video (env.episodes i)

/-- The data Radarr-side lookups need: the cached and refreshed `/movie` lists. -/
structure RadarrEnv where
  cached : List MovieRec
  refreshed : List MovieRec

/-- The method `RadarrClient.get_additional_data`: bail out when `title` is `None` or the
movie is not found; otherwise return a dictionary holding the movie file's
truthy `sceneName` and `releaseGroup` (possibly empty). -/
def radarr_get_additional_data (env : RadarrEnv) (video : Video) :
    Option AdditionalData :=
  if video.title.isNone then none
  else
    match get_movie video env.cached env.refreshed with
    | none => none
    | some m =>
      let mf := m.movieFile.getD MovieFile.empty
      some { scene_name := truthyOpt mf.sceneName
             release_group := truthyOpt mf.releaseGroup }

/-- The two concrete client classes of the module. -/
inductive ClientCls
  | sonarrCls
  | radarrCls
  deriving DecidableEq, Repr

/-- The dispatch table `DroneManager.registry`: `Episode -> SonarrClient`, `Movie -> RadarrClient`;
`registry.get` on any other type yields `None`. -/
def registry : VideoType → Option ClientCls
  | .episode => some .sonarrCls
  | .movie => some .radarrCls
  | .other => none

/-- The `cfg_name` class attribute of each client class. -/
def cfg_name : ClientCls → String
  | .sonarrCls => "sonarr"
  | .radarrCls => "radarr"

/-- The keyword arguments a client is constructed from (the configuration
entry); fields absent from the entry keep the constructor defaults. -/
structure DroneCfg where
  base_url : Option String := none
  api_key : Option String := none
  deriving DecidableEq, Repr

/-- The exceptions `DroneManager.get_client` can raise: `NotImplementedError`
for an unsupported media type, `KeyError` for a missing configuration entry. -/
inductive DroneError
  | notImplementedError
  | keyError
  deriving DecidableEq, Repr

/-- A constructed client instance, carrying the configuration it was built
from. -/
inductive Client
  | sonarr (cfg : DroneCfg)
  | radarr (cfg : DroneCfg)
  deriving DecidableEq, Repr

/-- The construction `client_cls(**cfg_kwa[client_cls.cfg_name])`. -/
def mkClient : ClientCls → DroneCfg → Client
  | .sonarrCls, c => .sonarr c
  | .radarrCls, c => .radarr c

/-- The dispatcher `DroneManager.get_client`: look the media type up in the registry, raise
`NotImplementedError` when absent, then build the client class from the
configuration entry named by its `cfg_name` (a missing entry is a
`KeyError`). -/
def get_client (vt : VideoType) (cfg_kwa : String → Option DroneCfg) :
    Except DroneError Client :=
  match registry vt with
  | none => .error .notImplementedError
  | some cls =>
    match cfg_kwa (cfg_name cls) with
    | none => .error .keyError
    | some cfg => .ok (mkClient cls cfg)

/-- Everything `refine` consumes from the outside world: backend responses,
the guessit heuristic of each client, and the crap-removal substitution. -/
structure Env where
  sonarrEnv : SonarrEnv
  radarrEnv : RadarrEnv
  guessEpisode : String → Guess
  guessMovie : String → Guess
  removeCrap : String → String

/-- Dispatch of `client.get_additional_data(video)` on the client instance. -/
def client_get_additional_data (env : Env) (c : Client) (video : Video) :
    Option AdditionalData :=
  match c with
  | .sonarr _ => sonarr_get_additional_data env.sonarrEnv video
  | .radarr _ => radarr_get_additional_data env.radarrEnv video

/-- The guessit call a client's `get_guess` uses (episode hints for Sonarr,
movie hints for Radarr). -/
def client_guessFn (env : Env) : Client → (String → Guess)
  | .sonarr _ => env.guessEpisode
  | .radarr _ => env.guessMovie

/-- The body of the `if additional_data:` block in `refine`: update the video
from the scene name when that key is present, then copy the crap-stripped
release group onto a still-falsy `video.release_group` when that key is
present. -/
def refine_apply (env : Env) (client : Client) (d : AdditionalData)
    (video : Video) : Video :=
  let v1 := match d.scene_name with
    | some s => update_video (client_guessFn env client) env.removeCrap video s
    | none => video
  match d.release_group with
  | some rg =>
    if pyTruthyStr v1.release_group then v1
    else { v1 with release_group := some (env.removeCrap rg) }
  | none => v1

/-- The entry point `refine`: build the client, fetch additional data, and when the returned
dictionary is truthy, apply it to the video.  The result pairs the raised
exception (if any) with the final state of the video object. -/
def refine (cfg_kwa : String → Option DroneCfg) (env : Env) (video : Video) :
    Option DroneError × Video :=
  match get_client video.vtype cfg_kwa with
  | .error e => (some e, video)
  | .ok client =>
    match client_get_additional_data env client video with
    | none => (none, video)
    | some d =>
      if d.scene_name.isSome || d.release_group.isSome then
        (none, refine_apply env client d video)
      else (none, video)

/-- The claim's identity-match predicate for series, in the spec's words:
record title equal to the video's series, or, when the video carries a TVDB id,
equality with the record's tvdbId. -/
def claimMatchShow (video : Video) (s : SonarrSeries) : Bool :=
  some s.title = video.series ||
    (pyTruthyNat video.series_tvdb_id &&
      match s.tvdbId with
      | some t => some t = video.series_tvdb_id
      | none => false)

/-- The claim's identity-match predicate for movies, in the spec's words:
record title equal to the video's title, or, when the video carries an IMDB id,
equality with the record's imdbId.  (No other disjunct.) -/
def claimMatchMovie (video : Video) (m : MovieRec) : Bool :=
  some m.title = video.title ||
    (pyTruthyStr video.imdb_id &&
      match m.imdbId with
      | some mi => some mi = video.imdb_id
      | none => false)

/-- The claim's lookup strategy, in the spec's words: first matching entry of
the cached list, otherwise first matching entry of the refreshed list,
otherwise nothing. -/
def claimLookup {α : Type} (p : α → Bool) (cached refreshed : List α) : Option α :=
  (cached.find? p).orElse (fun _ => refreshed.find? p)

/-- Python `str.endswith`: a suffix test. -/
def pyEndsWith (s suffix : String) : Bool :=
  suffix.toList.isSuffixOf s.toList

/-- The statement `if not base_url.endswith("/"): base_url += "/"` in `DroneAPIClient.__init__`. -/
def normalize_base_url (base : String) : String :=
  if pyEndsWith base "/" then base else base ++ "/"

/-- The `api_url` attribute after `DroneAPIClient.__init__`: `None` (the class
default) when the normalized base url already ends with `api/`, otherwise the
join of the normalized base url with `api/`.  `join` models the external
`requests.compat.urljoin`. -/
def init_api_url (join : String → String → String) (base : String) : Option String :=
  let b := normalize_base_url base
  if pyEndsWith b "api/" then none else some (join b "api/")

/-- Python 2 `str.capitalize`: first character uppercased, the rest
lowercased. -/
def pyCapitalize : List Char → List Char
  | [] => []
  | c :: rest => c.toUpper :: rest.map Char.toLower

/-- Python `str.split(sep)` for a one-character separator: splitting an empty
string yields one empty piece, and adjacent separators yield empty pieces. -/
def splitOnChar (sep : Char) : List Char → List (List Char)
  | [] => [[]]
  | c :: rest =>
    let r := splitOnChar sep rest
    if c = sep then [] :: r
    else
      match r with
      | [] => [[c]]
      | h :: t => (c :: h) :: t

/-- The key conversion in `build_params`:
`key.split('_')[0] + ''.join(x.capitalize() for x in key.split('_')[1:])`. -/
def camelKey (key : String) : String :=
  match splitOnChar '_' key.toList with
  | [] => ""
  | p :: rest => String.mk (p ++ (rest.map pyCapitalize).flatten)

/-- A Python 2 parameter value as `build_params` distinguishes them: a byte
string, a unicode string, or a non-string (represented by an integer). -/
inductive PyVal
  | str (bytes : List Nat)
  | uni (s : String)
  | int (n : Int)
  deriving DecidableEq, Repr

/-- The utf-8 encoding of one character, as a list of byte values. -/
def utf8EncChar (c : Char) : List Nat :=
  let n := c.toNat
  if n < 128 then [n]
  else if n < 2048 then [192 + n / 64, 128 + n % 64]
  else if n < 65536 then [224 + n / 4096, 128 + (n / 64) % 64, 128 + n % 64]
  else [240 + n / 262144, 128 + (n / 4096) % 64, 128 + (n / 64) % 64, 128 + n % 64]

/-- The utf-8 encoding of a string, as a list of byte values. -/
def utf8Enc (s : String) : List Nat :=
  s.toList.foldr (fun c acc => utf8EncChar c ++ acc) []

/-- The value conversion in `build_params`: non-strings go through `str()`,
unicode strings are utf-8 encoded, byte strings pass unchanged. -/
def pyValToBytes : PyVal → List Nat
  | .str bs => bs
  | .uni s => utf8Enc s
  | .int n => utf8Enc (toString n)

/-- The characters Python 2 `urllib.quote` leaves unescaped with the default
`safe='/'`: letters, digits, underscore, dot, hyphen, and the slash. -/
def quoteSafeChar (b : Nat) : Bool :=
  (65 ≤ b && b ≤ 90) || (97 ≤ b && b ≤ 122) || (48 ≤ b && b ≤ 57) ||
    b = 95 || b = 46 || b = 45 || b = 47

/-- An uppercase hexadecimal digit. -/
def hexDigit (n : Nat) : Char :=
  if n < 10 then Char.ofNat (48 + n) else Char.ofNat (55 + n)

/-- Python 2 `urllib.quote` over a byte string: safe bytes pass through, every
other byte becomes a percent escape with two uppercase hex digits. -/
def quote (bs : List Nat) : String :=
  String.mk (bs.foldr
    (fun b acc =>
      if quoteSafeChar b then Char.ofNat b :: acc
      else '%' :: hexDigit (b / 16) :: hexDigit (b % 16) :: acc)
    [])

/-- The assignment `out[key] = value` on a dictionary modelled as an ordered association
list: replace the value of an existing key, append a new key. -/
def dictInsert (out : List (String × String)) (k v : String) :
    List (String × String) :=
  match out with
  | [] => [(k, v)]
  | (k0, v0) :: rest =>
    if k0 = k then (k0, v) :: rest else (k0, v0) :: dictInsert rest k v

/-- The method `DroneAPIClient.build_params`: iterate over the parameter dictionary,
converting each key to camelCase and each value to a quoted byte string. -/
def build_params (params : List (String × PyVal)) : List (String × String) :=
  params.foldl
    (fun out kv => dictInsert out (camelKey kv.1) (quote (pyValToBytes kv.2)))
    []

/-- The generator `sonarr_series_cache_key`: a dogpile key generator that ignores namespace,
function, keyword and positional arguments and always yields the same key. -/
def sonarr_series_cache_key (_ns _fn : String) (_kw : List (String × String)) :
    List String → String :=
  fun _ => "sonarr_series"

/-- The generator `radarr_movies_cache_key`: the Radarr analogue of the constant key
generator. -/
def radarr_movies_cache_key (_ns _fn : String) (_kw : List (String × String)) :
    List String → String :=
  fun _ => "radarr_movies"

/-- The configured `should_cache_fn=lambda x: bool(x)`: Python truthiness of the fetched list. -/
def pyTruthyList {α : Type} (l : List α) : Bool := !l.isEmpty

/-- Modelled from the spec: the external keyed cache backend ("The
cache/memoization backend (external keyed cache with manual invalidation)") —
a mapping from string keys to stored values. -/
def CacheMap (α : Type) : Type := String → Option α

/-- Modelled from the spec: writing one key of the external keyed cache. -/
def cache_store {α : Type} (cache : CacheMap α) (key : String) (v : α) :
    CacheMap α :=
  fun k => if k = key then some v else cache k

/-- Modelled from the spec: a memoized call of a `cache_on_arguments`-decorated
function — return the stored value under the generated key when present,
otherwise call the creator and store its result only when the configured
`should_cache_fn` accepts it. -/
def cached_call {α : Type} (cache : CacheMap α) (key : String)
    (should_cache : α → Bool) (creator : α) : α × CacheMap α :=
  match cache key with
  | some v => (v, cache)
  | none =>
    (creator, if should_cache creator then cache_store cache key creator else cache)

/-- Modelled from the spec: the manual invalidation (`.refresh()`) of a
memoized call — call the creator, store its result when `should_cache_fn`
accepts it, and return it. -/
def cache_refresh {α : Type} (cache : CacheMap α) (key : String)
    (should_cache : α → Bool) (creator : α) : α × CacheMap α :=
  (creator, if should_cache creator then cache_store cache key creator else cache)

/-- The memoized `SonarrClient.get_all_series` with its cache state made explicit: a
memoized fetch of the `/series` list under the constant key. -/
def get_all_series (cache : CacheMap (List SonarrSeries))
    (fetch : List SonarrSeries) : List SonarrSeries × CacheMap (List SonarrSeries) :=
  cached_call cache (sonarr_series_cache_key "" "" [] []) pyTruthyList fetch

/-- The memoized `RadarrClient.get_all_movies` with its cache state made explicit. -/
def get_all_movies (cache : CacheMap (List MovieRec))
    (fetch : List MovieRec) : List MovieRec × CacheMap (List MovieRec) :=
  cached_call cache (radarr_movies_cache_key "" "" [] []) pyTruthyList fetch

/-- The lookup `SonarrClient.get_show_id` with its cache state made explicit: scan the
memoized list; only on a miss refresh the cache (with the second fetch result)
and scan again. -/
def get_show_id_st (video : Video) (cache : CacheMap (List SonarrSeries))
    (fetch fetch2 : List SonarrSeries) :
    Option Nat × CacheMap (List SonarrSeries) :=
  let r1 := get_all_series cache fetch
  match scanShows video r1.1 with
  | some i => (some i, r1.2)
  | none =>
    let r2 := cache_refresh r1.2 (sonarr_series_cache_key "" "" [] []) pyTruthyList fetch2
    (scanShows video r2.1, r2.2)

/-- The lookup `RadarrClient.get_movie` with its cache state made explicit. -/
def get_movie_st (video : Video) (cache : CacheMap (List MovieRec))
    (fetch fetch2 : List MovieRec) :
    Option MovieRec × CacheMap (List MovieRec) :=
  let r1 := get_all_movies cache fetch
  match scanMovies video r1.1 with
  | some m => (some m, r1.2)
  | none =>
    let r2 := cache_refresh r1.2 (radarr_movies_cache_key "" "" [] []) pyTruthyList fetch2
    (scanMovies video r2.1, r2.2)

/-! ### Helper lemmas -/

/-- The show-scanning loop returns the id of the first matching entry. -/
lemma scanShows_eq_find (video : Video) (l : List SonarrSeries) :
    scanShows video l = (l.find? (is_correct_show video)).map SonarrSeries.id := by
  induction l with
  | nil => rfl
  | cons s rest ih =>
    by_cases h : is_correct_show video s
    · simp [scanShows, List.find?_cons_of_pos _ h, h]
    · simp [scanShows, List.find?_cons_of_neg _ h, h, ih]

/-- The movie-scanning loop returns the first matching entry. -/
lemma scanMovies_eq_find (video : Video) (l : List MovieRec) :
    scanMovies video l = l.find? (is_correct_movie video) := by
  induction l with
  | nil => rfl
  | cons m rest ih =>
    by_cases h : is_correct_movie video m
    · simp [scanMovies, List.find?_cons_of_pos _ h, h]
    · simp [scanMovies, List.find?_cons_of_neg _ h, h, ih]

/-- The code's series-match predicate coincides with the claim's. -/
lemma is_correct_show_eq_claim : is_correct_show = claimMatchShow := rfl

/-- The code's movie-match predicate is the claim's plus the relative-path
disjunct. -/
lemma is_correct_movie_eq (video : Video) (m : MovieRec) :
    is_correct_movie video m =
      (claimMatchMovie video m ||
        ((m.movieFile.getD MovieFile.empty).relativePath =
          some (basename video.name) : Bool)) := by
  simp [is_correct_movie, claimMatchMovie, Bool.or_assoc]

/-! ### C1 -/

/-- C1 (amended): each lookup first scans the cached list and only on a miss
scans the refreshed list, returning the first matching entry (its id, for
Sonarr) and nothing when neither scan matches; the Sonarr match is the claim's
title/tvdbId identity match, while the Radarr match additionally accepts a
record whose movie file's relativePath equals the basename of the video's
file name. -/
theorem C1_lookup_cached_then_refreshed :
    (∀ (video : Video) (cached refreshed : List SonarrSeries),
        get_show_id video cached refreshed =
          (claimLookup (claimMatchShow video) cached refreshed).map SonarrSeries.id) ∧
    (∀ (video : Video) (cached refreshed : List MovieRec),
        get_movie video cached refreshed =
          claimLookup
            (fun m => claimMatchMovie video m ||
              ((m.movieFile.getD MovieFile.empty).relativePath =
                some (basename video.name) : Bool))
            cached refreshed) := by
  constructor
  · intro video cached refreshed
    rw [get_show_id, claimLookup, scanShows_eq_find, scanShows_eq_find,
      ← is_correct_show_eq_claim]
    cases cached.find? (is_correct_show video) <;> simp [Option.orElse]
  · intro video cached refreshed
    have hp : (fun m => claimMatchMovie video m ||
        ((m.movieFile.getD MovieFile.empty).relativePath =
          some (basename video.name) : Bool)) = is_correct_movie video := by
      funext m
      rw [is_correct_movie_eq]
    rw [get_movie, claimLookup, scanMovies_eq_find, scanMovies_eq_find, hp]
    cases cached.find? (is_correct_movie video) <;> simp [Option.orElse]

/-- A concrete movie and video where only the relative-path disjunct fires. -/
def cMovieC1 : MovieRec :=
  { title := "My Movie"
    imdbId := none
    movieFile := some { relativePath := some "My.Movie.2017.mkv"
                        sceneName := none
                        releaseGroup := none } }

/-- The concrete video for the C1 counterexample. -/
def cVideoC1 : Video :=
  { vtype := .movie
    name := "/films/My.Movie.2017.mkv"
    title := some "Other Movie" }

/-- C1 counterexample: `get_movie` returns a cached record on the first scan
even though the claim's identity match (title or imdbId) rejects it, so the
claim's lookup — which would refresh and then return nothing — disagrees with
the code. -/
theorem C1_counterexample :
    get_movie cVideoC1 [cMovieC1] [] = some cMovieC1 ∧
    claimMatchMovie cVideoC1 cMovieC1 = false ∧
    claimLookup (claimMatchMovie cVideoC1) [cMovieC1] [] = none := by
  refine ⟨by decide, by decide, by decide⟩

/-! ### C2 -/

/-- C2: `update_video` sets exactly the `_fill_attrs` attributes
(`release_group`, `format`) present in the guess computed from the crap-stripped
scene name with the video's extension appended, leaves absent attributes
unchanged, always sets `original_name` to the cleaned filename, and touches no
other field. -/
theorem C2_update_video_fills_guessed_attrs
    (guessFn : String → Guess) (removeCrap : String → String)
    (video : Video) (scene_name : String) :
    update_video guessFn removeCrap video scene_name =
      { video with
        release_group :=
          ((guessFn (removeCrap (scene_name ++ splitextExt video.name))).release_group).or
            video.release_group
        fmt :=
          ((guessFn (removeCrap (scene_name ++ splitextExt video.name))).fmt).or
            video.fmt
        original_name :=
          some (removeCrap (scene_name ++ splitextExt video.name)) } := by
  simp only [update_video, get_guess]
  cases h1 : (guessFn (removeCrap (scene_name ++ splitextExt video.name))).release_group <;>
    cases h2 : (guessFn (removeCrap (scene_name ++ splitextExt video.name))).fmt <;>
      simp [h1, h2, Option.or]

/-! ### C3 -/

/-- Python truthiness of a `get_additional_data` result: `None` and the empty
dictionary are falsy (the `if additional_data:` test in `refine`); "no usable
data" means a falsy result. -/
def dataTruthy : Option AdditionalData → Bool
  | none => false
  | some d => d.scene_name.isSome || d.release_group.isSome

/-- C3 (amended): when a required attribute is missing, or the show, episode or
movie cannot be found, or (for Sonarr) the first matching episode carries no
scene name, or (for Radarr) the matched movie record carries neither a scene
name nor a release group, `get_additional_data` returns no usable data and
`refine` leaves the video record completely unchanged. -/
theorem C3_failure_means_skip :
    ∀ (cfg_kwa : String → Option DroneCfg) (env : Env) (video : Video),
      (video.vtype = VideoType.episode →
        (video.series.isNone ∨ video.season.isNone ∨ video.episode.isNone ∨
          pyTruthyNat (get_show_id video env.sonarrEnv.cached env.sonarrEnv.refreshed) = false ∨
          (∀ i, get_show_id video env.sonarrEnv.cached env.sonarrEnv.refreshed = some i →
            findEpisodeScene video (env.sonarrEnv.episodes i) = none)) →
        dataTruthy (sonarr_get_additional_data env.sonarrEnv video) = false ∧
        (refine cfg_kwa env video).2 = video) ∧
      (video.vtype = VideoType.movie →
        (video.title.isNone ∨
          get_movie video env.radarrEnv.cached env.radarrEnv.refreshed = none ∨
          (∀ m, get_movie video env.radarrEnv.cached env.radarrEnv.refreshed = some m →
            truthyOpt (m.movieFile.getD MovieFile.empty).sceneName = none ∧
            truthyOpt (m.movieFile.getD MovieFile.empty).releaseGroup = none)) →
        dataTruthy (radarr_get_additional_data env.radarrEnv video) = false ∧
        (refine cfg_kwa env video).2 = video) := by
  intro cfg_kwa env video
  constructor
  · intro hvt hcond
    have hgad : sonarr_get_additional_data env.sonarrEnv video = none := by
      unfold sonarr_get_additional_data
      rcases hcond with h | h | h | h | h
      · simp [h]
      · simp [h]
      · simp [h]
      · split
        · rfl
        · cases hg : get_show_id video env.sonarrEnv.cached env.sonarrEnv.refreshed with
          | none => rfl
          | some i =>
            rw [hg] at h
            simp [pyTruthyNat] at h
            simp [h]
      · split
        · rfl
        · cases hg : get_show_id video env.sonarrEnv.cached env.sonarrEnv.refreshed with
          | none => rfl
          | some i =>
            by_cases hi : i = 0
            · simp [hi]
            · simp [hi, h i hg]
    refine ⟨by simp [hgad, dataTruthy], ?_⟩
    cases hcfg : cfg_kwa "sonarr" with
    | none => simp [refine, get_client, hvt, registry, cfg_name, hcfg]
    | some c =>
      simp [refine, get_client, hvt, registry, cfg_name, hcfg, mkClient,
        client_get_additional_data, hgad]
  · intro hvt hcond
    have hgad : dataTruthy (radarr_get_additional_data env.radarrEnv video) = false := by
      by_cases ht : video.title.isNone
      · simp [radarr_get_additional_data, ht, dataTruthy]
      · rcases hcond with h | h | h
        · exact absurd h ht
        · simp [radarr_get_additional_data, ht, h, dataTruthy]
        · cases hg : get_movie video env.radarrEnv.cached env.radarrEnv.refreshed with
          | none => simp [radarr_get_additional_data, ht, hg, dataTruthy]
          | some m =>
            obtain ⟨h1, h2⟩ := h m hg
            simp [radarr_get_additional_data, ht, hg, dataTruthy, h1, h2]
    refine ⟨hgad, ?_⟩
    cases hcfg : cfg_kwa "radarr" with
    | none => simp [refine, get_client, hvt, registry, cfg_name, hcfg]
    | some c =>
      cases hr : radarr_get_additional_data env.radarrEnv video with
      | none =>
        simp [refine, get_client, hvt, registry, cfg_name, hcfg, mkClient,
          client_get_additional_data, hr]
      | some d =>
        rw [hr] at hgad
        simp only [dataTruthy, Bool.or_eq_false_iff] at hgad
        simp [refine, get_client, hvt, registry, cfg_name, hcfg, mkClient,
          client_get_additional_data, hr, hgad.1, hgad.2]

/-- The matched Radarr record of the C3 counterexample: no scene name, but a
release group. -/
def cMovieC3 : MovieRec :=
  { title := "Skip Movie"
    imdbId := none
    movieFile := some { relativePath := none
                        sceneName := none
                        releaseGroup := some "EVO" } }

/-- The environment of the C3 counterexample. -/
def cEnvC3 : Env :=
  { sonarrEnv := { cached := [], refreshed := [], episodes := fun _ => [] }
    radarrEnv := { cached := [cMovieC3], refreshed := [] }
    guessEpisode := fun _ => {}
    guessMovie := fun _ => {}
    removeCrap := id }

/-- The configuration of the C3 counterexample. -/
def cCfgC3 : String → Option DroneCfg :=
  fun s => if s = "radarr" then some {} else none

/-- The video of the C3 counterexample. -/
def cVideoC3 : Video :=
  { vtype := .movie, name := "skip.mkv", title := some "Skip Movie" }

/-- C3 counterexample: the matched movie record carries no scene name, yet
`refine` does not leave the video unchanged — the Radarr release group is
copied onto it. -/
theorem C3_counterexample :
    get_movie cVideoC3 cEnvC3.radarrEnv.cached cEnvC3.radarrEnv.refreshed = some cMovieC3 ∧
    (cMovieC3.movieFile.getD MovieFile.empty).sceneName = none ∧
    (refine cCfgC3 cEnvC3 cVideoC3).2 ≠ cVideoC3 ∧
    (refine cCfgC3 cEnvC3 cVideoC3).2.release_group = some "EVO" := by
  refine ⟨by decide, by decide, by decide, by decide⟩

/-- The video of the C3 witness: an episode with no `series` attribute. -/
def wVideoC3 : Video :=
  { vtype := .episode, name := "w.mkv", season := some 1, episode := some 2 }

/-- C3 witness: a Sonarr video missing its `series` attribute is skipped. -/
theorem C3_witness :
    dataTruthy (sonarr_get_additional_data cEnvC3.sonarrEnv wVideoC3) = false ∧
    (refine cCfgC3 cEnvC3 wVideoC3).2 = wVideoC3 :=
  (C3_failure_means_skip cCfgC3 cEnvC3 wVideoC3).1 (by decide) (Or.inl (by decide))

/-! ### C4 -/

/-- C4: the dispatcher builds a Sonarr client from the "sonarr" configuration
entry for an Episode video, and a Radarr client from the "radarr" entry for a
Movie video. -/
theorem C4_get_client_dispatch :
    ∀ (cfg_kwa : String → Option DroneCfg) (video : Video) (c : DroneCfg),
      (video.vtype = VideoType.episode → cfg_kwa "sonarr" = some c →
        get_client video.vtype cfg_kwa = Except.ok (Client.sonarr c)) ∧
      (video.vtype = VideoType.movie → cfg_kwa "radarr" = some c →
        get_client video.vtype cfg_kwa = Except.ok (Client.radarr c)) := by
  intro cfg_kwa video c
  constructor
  · intro h1 h2
    simp [get_client, h1, registry, cfg_name, h2, mkClient]
  · intro h1 h2
    simp [get_client, h1, registry, cfg_name, h2, mkClient]

/-- The configuration map of the C4 witness. -/
def wCfgC4 : String → Option DroneCfg :=
  fun s => if s = "sonarr" then some { api_key := some "k" } else none

/-- The video of the C4 witness. -/
def wVideoC4 : Video := { vtype := .episode, name := "e.mkv" }

/-- C4 witness: an Episode video yields a Sonarr client built from the
"sonarr" entry. -/
theorem C4_witness :
    get_client wVideoC4.vtype wCfgC4 =
      Except.ok (Client.sonarr { api_key := some "k" }) :=
  (C4_get_client_dispatch wCfgC4 wVideoC4 { api_key := some "k" }).1
    (by decide) (by decide)

/-! ### C5 -/

/-- The method `update_video` only writes `release_group`, `fmt` and `original_name`. -/
lemma update_video_frame (g : String → Guess) (rc : String → String)
    (video : Video) (s : String) :
    (update_video g rc video s).vtype = video.vtype ∧
    (update_video g rc video s).name = video.name ∧
    (update_video g rc video s).series = video.series ∧
    (update_video g rc video s).season = video.season ∧
    (update_video g rc video s).episode = video.episode ∧
    (update_video g rc video s).title = video.title ∧
    (update_video g rc video s).series_tvdb_id = video.series_tvdb_id ∧
    (update_video g rc video s).imdb_id = video.imdb_id := by
  simp only [update_video, get_guess]
  cases (g (rc (s ++ splitextExt video.name))).release_group <;>
    cases (g (rc (s ++ splitextExt video.name))).fmt <;> simp

/-- The block `refine_apply` only writes `release_group`, `fmt` and `original_name`. -/
lemma refine_apply_frame (env : Env) (client : Client) (d : AdditionalData)
    (video : Video) :
    (refine_apply env client d video).vtype = video.vtype ∧
    (refine_apply env client d video).name = video.name ∧
    (refine_apply env client d video).series = video.series ∧
    (refine_apply env client d video).season = video.season ∧
    (refine_apply env client d video).episode = video.episode ∧
    (refine_apply env client d video).title = video.title ∧
    (refine_apply env client d video).series_tvdb_id = video.series_tvdb_id ∧
    (refine_apply env client d video).imdb_id = video.imdb_id := by
  unfold refine_apply
  cases hs : d.scene_name with
  | none =>
    cases hrg : d.release_group with
    | none => simp
    | some rg => by_cases h : pyTruthyStr video.release_group <;> simp [h]
  | some s =>
    have hf := update_video_frame (client_guessFn env client) env.removeCrap video s
    obtain ⟨f1, f2, f3, f4, f5, f6, f7, f8⟩ := hf
    cases hrg : d.release_group with
    | none => simp [f1, f2, f3, f4, f5, f6, f7, f8]
    | some rg =>
      by_cases h : pyTruthyStr (update_video (client_guessFn env client)
          env.removeCrap video s).release_group <;>
        simp [h, f1, f2, f3, f4, f5, f6, f7, f8]

/-- C5: `refine` mutates at most `release_group`, `format` and
`original_name`; every other field of the video record is unchanged. -/
theorem C5_refine_frame :
    ∀ (cfg_kwa : String → Option DroneCfg) (env : Env) (video : Video),
      (refine cfg_kwa env video).2.vtype = video.vtype ∧
      (refine cfg_kwa env video).2.name = video.name ∧
      (refine cfg_kwa env video).2.series = video.series ∧
      (refine cfg_kwa env video).2.season = video.season ∧
      (refine cfg_kwa env video).2.episode = video.episode ∧
      (refine cfg_kwa env video).2.title = video.title ∧
      (refine cfg_kwa env video).2.series_tvdb_id = video.series_tvdb_id ∧
      (refine cfg_kwa env video).2.imdb_id = video.imdb_id := by
  intro cfg_kwa env video
  unfold refine
  cases hc : get_client video.vtype cfg_kwa with
  | error e => simp [hc]
  | ok client =>
    cases had : client_get_additional_data env client video with
    | none => simp [hc, had]
    | some d =>
      by_cases htr : d.scene_name.isSome = true ∨ d.release_group.isSome = true
      · simpa [hc, had, htr] using refine_apply_frame env client d video
      · simp [hc, had, htr]

/-! ### C6 -/

/-- C6: when Radarr supplies a release group, `refine` copies its crap-stripped
value onto `video.release_group` only if the release group is still falsy after
the scene-name update; an already-set release group is never overwritten. -/
theorem C6_release_group_copy_guard :
    ∀ (cfg_kwa : String → Option DroneCfg) (env : Env) (video : Video)
      (c : DroneCfg) (d : AdditionalData) (rg : String),
      video.vtype = VideoType.movie →
      cfg_kwa "radarr" = some c →
      radarr_get_additional_data env.radarrEnv video = some d →
      d.release_group = some rg →
      ∀ v1, v1 = (match d.scene_name with
          | some s => update_video (client_guessFn env (Client.radarr c))
              env.removeCrap video s
          | none => video) →
        (refine cfg_kwa env video).2 = refine_apply env (Client.radarr c) d video ∧
        (pyTruthyStr v1.release_group = true →
          refine_apply env (Client.radarr c) d video = v1) ∧
        (pyTruthyStr v1.release_group = false →
          refine_apply env (Client.radarr c) d video =
            { v1 with release_group := some (env.removeCrap rg) }) := by
  intro cfg_kwa env video c d rg hvt hcfg hgad hrg v1 hv1
  refine ⟨?_, ?_, ?_⟩
  · simp [refine, get_client, hvt, registry, cfg_name, hcfg, mkClient,
      client_get_additional_data, hgad, hrg]
  · intro ht
    rw [refine_apply, hrg, ← hv1]
    simp [ht]
  · intro ht
    rw [refine_apply, hrg, ← hv1]
    simp [ht]

/-- The matched Radarr record of the C6 witness: a release group but no scene
name. -/
def wMovieC6 : MovieRec :=
  { title := "Keep Movie"
    imdbId := none
    movieFile := some { relativePath := none
                        sceneName := none
                        releaseGroup := some "EVO" } }

/-- The environment of the C6 witness. -/
def wEnvC6 : Env :=
  { sonarrEnv := { cached := [], refreshed := [], episodes := fun _ => [] }
    radarrEnv := { cached := [wMovieC6], refreshed := [] }
    guessEpisode := fun _ => {}
    guessMovie := fun _ => {}
    removeCrap := id }

/-- The configuration of the C6 witness. -/
def wCfgC6 : String → Option DroneCfg :=
  fun s => if s = "radarr" then some {} else none

/-- The video of the C6 witness: its release group is already set. -/
def wVideoC6 : Video :=
  { vtype := .movie, name := "keep.mkv", title := some "Keep Movie"
    release_group := some "KEEP" }

/-- C6 witness: a video whose release group is already set keeps it even though
Radarr supplied one. -/
theorem C6_witness :
    (refine wCfgC6 wEnvC6 wVideoC6).2 =
      refine_apply wEnvC6 (Client.radarr {}) { release_group := some "EVO" } wVideoC6 ∧
    refine_apply wEnvC6 (Client.radarr {}) { release_group := some "EVO" } wVideoC6 =
      wVideoC6 := by
  have h := C6_release_group_copy_guard wCfgC6 wEnvC6 wVideoC6 {}
    { release_group := some "EVO" } "EVO" (by decide) (by decide) (by decide)
    (by decide) wVideoC6 (by decide)
  exact ⟨h.1, h.2.1 (by decide)⟩

/-! ### C7 -/

/-- C7: both full-list fetches are memoized under a single fixed key that is
independent of the generator's arguments; a memoized call returns a present
entry untouched and stores a fetched result only when it is truthy; and the
only cache write a lookup performs beyond that is the refresh executed when
the scan of the memoized list finds no match. -/
theorem C7_cache_single_key_memoization :
    (∀ ns fn kw args, sonarr_series_cache_key ns fn kw args = "sonarr_series") ∧
    (∀ ns fn kw args, radarr_movies_cache_key ns fn kw args = "radarr_movies") ∧
    (∀ (cache : CacheMap (List SonarrSeries)) (fetch l : List SonarrSeries),
      cache "sonarr_series" = some l → get_all_series cache fetch = (l, cache)) ∧
    (∀ (cache : CacheMap (List SonarrSeries)) (fetch : List SonarrSeries),
      cache "sonarr_series" = none →
      get_all_series cache fetch =
        (fetch, if pyTruthyList fetch then cache_store cache "sonarr_series" fetch
                else cache)) ∧
    (∀ (cache : CacheMap (List MovieRec)) (fetch l : List MovieRec),
      cache "radarr_movies" = some l → get_all_movies cache fetch = (l, cache)) ∧
    (∀ (cache : CacheMap (List MovieRec)) (fetch : List MovieRec),
      cache "radarr_movies" = none →
      get_all_movies cache fetch =
        (fetch, if pyTruthyList fetch then cache_store cache "radarr_movies" fetch
                else cache)) ∧
    (∀ (video : Video) (cache : CacheMap (List SonarrSeries)) (fetch fetch2 : List SonarrSeries) (i : Nat),
      scanShows video (get_all_series cache fetch).1 = some i →
      get_show_id_st video cache fetch fetch2 = (some i, (get_all_series cache fetch).2)) ∧
    (∀ (video : Video) (cache : CacheMap (List SonarrSeries)) (fetch fetch2 : List SonarrSeries),
      scanShows video (get_all_series cache fetch).1 = none →
      get_show_id_st video cache fetch fetch2 =
        (scanShows video fetch2,
          if pyTruthyList fetch2
          then cache_store (get_all_series cache fetch).2 "sonarr_series" fetch2
          else (get_all_series cache fetch).2)) ∧
    (∀ (video : Video) (cache : CacheMap (List MovieRec)) (fetch fetch2 : List MovieRec) (m : MovieRec),
      scanMovies video (get_all_movies cache fetch).1 = some m →
      get_movie_st video cache fetch fetch2 = (some m, (get_all_movies cache fetch).2)) ∧
    (∀ (video : Video) (cache : CacheMap (List MovieRec)) (fetch fetch2 : List MovieRec),
      scanMovies video (get_all_movies cache fetch).1 = none →
      get_movie_st video cache fetch fetch2 =
        (scanMovies video fetch2,
          if pyTruthyList fetch2
          then cache_store (get_all_movies cache fetch).2 "radarr_movies" fetch2
          else (get_all_movies cache fetch).2)) := by
  refine ⟨fun ns fn kw args => rfl, fun ns fn kw args => rfl, ?_, ?_, ?_, ?_, ?_, ?_, ?_, ?_⟩
  · intro cache fetch l h
    simp [get_all_series, cached_call, sonarr_series_cache_key, h]
  · intro cache fetch h
    simp [get_all_series, cached_call, sonarr_series_cache_key, h]
  · intro cache fetch l h
    simp [get_all_movies, cached_call, radarr_movies_cache_key, h]
  · intro cache fetch h
    simp [get_all_movies, cached_call, radarr_movies_cache_key, h]
  · intro video cache fetch fetch2 i h
    simp [get_show_id_st, h]
  · intro video cache fetch fetch2 h
    simp [get_show_id_st, h, cache_refresh, sonarr_series_cache_key]
  · intro video cache fetch fetch2 m h
    simp [get_movie_st, h]
  · intro video cache fetch fetch2 h
    simp [get_movie_st, h, cache_refresh, radarr_movies_cache_key]

/-- A series record for the C7 witness. -/
def wSeriesC7 : SonarrSeries := { id := 7, title := "Some Show" }

/-- A cache for the C7 witness that already holds the series list. -/
def wCacheC7 : CacheMap (List SonarrSeries) :=
  fun k => if k = "sonarr_series" then some [wSeriesC7] else none

/-- C7 witness: a memoized call on a populated cache returns the stored list
and leaves the cache untouched. -/
theorem C7_witness :
    get_all_series wCacheC7 [] = ([wSeriesC7], wCacheC7) :=
  C7_cache_single_key_memoization.2.2.1 wCacheC7 [] [wSeriesC7] rfl

/-! ### C8 -/

/-- C8: a video whose type is neither Episode nor Movie makes `get_client`
raise `NotImplementedError`, and `refine` propagates it with the video record
unmodified. -/
theorem C8_unsupported_media_type :
    ∀ (cfg_kwa : String → Option DroneCfg) (env : Env) (video : Video),
      video.vtype ≠ VideoType.episode → video.vtype ≠ VideoType.movie →
      get_client video.vtype cfg_kwa = Except.error DroneError.notImplementedError ∧
      refine cfg_kwa env video = (some DroneError.notImplementedError, video) := by
  intro cfg_kwa env video h1 h2
  cases hv : video.vtype with
  | episode => exact absurd hv h1
  | movie => exact absurd hv h2
  | other =>
    constructor
    · simp [get_client, registry, hv]
    · simp [refine, get_client, registry, hv]

/-- The environment of the C8 witness. -/
def wEnvC8 : Env :=
  { sonarrEnv := { cached := [], refreshed := [], episodes := fun _ => [] }
    radarrEnv := { cached := [], refreshed := [] }
    guessEpisode := fun _ => {}
    guessMovie := fun _ => {}
    removeCrap := id }

/-- The video of the C8 witness: an unsupported media type. -/
def wVideoC8 : Video := { vtype := .other, name := "x.bin" }

/-- C8 witness: the unsupported media type raises and the video is returned
unchanged. -/
theorem C8_witness :
    get_client wVideoC8.vtype (fun _ => none) =
      Except.error DroneError.notImplementedError ∧
    refine (fun _ => none) wEnvC8 wVideoC8 =
      (some DroneError.notImplementedError, wVideoC8) :=
  C8_unsupported_media_type (fun _ => none) wEnvC8 wVideoC8 (by decide) (by decide)

/-! ### C9 -/

/-- C9: `__init__` first appends a trailing slash to a `base_url` lacking one,
then sets `api_url` to the join of the normalized base url with `api/` exactly
when the normalized base url does not already end with `api/`; otherwise
`api_url` stays `None`. -/
theorem C9_api_url_setting :
    ∀ (join : String → String → String) (base : String),
      (pyEndsWith base "/" = false → normalize_base_url base = base ++ "/") ∧
      (pyEndsWith base "/" = true → normalize_base_url base = base) ∧
      (pyEndsWith (normalize_base_url base) "api/" = true →
        init_api_url join base = none) ∧
      (pyEndsWith (normalize_base_url base) "api/" = false →
        init_api_url join base = some (join (normalize_base_url base) "api/")) := by
  intro join base
  refine ⟨?_, ?_, ?_, ?_⟩ <;> intro h
  · simp [normalize_base_url, h]
  · simp [normalize_base_url, h]
  · simp [init_api_url, h]
  · simp [init_api_url, h]

/-- C9 witness: a base url already ending in `api/` after normalization leaves
`api_url` as `None`. -/
theorem C9_witness :
    init_api_url (fun a b => a ++ b) "http://host/api" = none :=
  (C9_api_url_setting (fun a b => a ++ b) "http://host/api").2.2.1 (by decide)

/-! ### C10 -/

/-- Inserting a fresh key into the dictionary appends it. -/
lemma dictInsert_of_notMem (out : List (String × String)) (k v : String)
    (h : k ∉ out.map Prod.fst) : dictInsert out k v = out ++ [(k, v)] := by
  induction out with
  | nil => rfl
  | cons p rest ih =>
    obtain ⟨k0, v0⟩ := p
    simp only [List.map_cons, List.mem_cons, not_or] at h
    simp only [dictInsert]
    rw [if_neg (fun he => h.1 he.symm)]
    simp [ih h.2]

/-- The `build_params` fold with an accumulator disjoint from the camelized
keys appends the converted pairs in order. -/
lemma build_params_foldl (params : List (String × PyVal)) :
    ∀ acc : List (String × String),
      (∀ kv ∈ params, camelKey kv.1 ∉ acc.map Prod.fst) →
      (params.map (fun kv => camelKey kv.1)).Nodup →
      params.foldl
          (fun out kv => dictInsert out (camelKey kv.1) (quote (pyValToBytes kv.2)))
          acc =
        acc ++ params.map (fun kv => (camelKey kv.1, quote (pyValToBytes kv.2))) := by
  induction params with
  | nil => intro acc _ _; simp
  | cons kv rest ih =>
    intro acc hdisj hnodup
    simp only [List.map_cons, List.nodup_cons] at hnodup
    simp only [List.foldl_cons]
    rw [dictInsert_of_notMem acc _ _ (hdisj kv (List.mem_cons_self _ _))]
    have hd2 : ∀ kv' ∈ rest, camelKey kv'.1 ∉
        ((acc ++ [(camelKey kv.1, quote (pyValToBytes kv.2))]).map Prod.fst) := by
      intro kv' h'
      simp only [List.map_append, List.mem_append, not_or, List.map_cons,
        List.mem_singleton, List.map_nil]
      refine ⟨hdisj kv' (List.mem_cons_of_mem _ h'), ?_⟩
      intro hmem
      exact hnodup.1 (hmem ▸ List.mem_map_of_mem (fun kv => camelKey kv.1) h')
    rw [ih (acc ++ [(camelKey kv.1, quote (pyValToBytes kv.2))]) hd2 hnodup.2]
    simp only [List.map_cons, List.append_assoc, List.singleton_append]

/-- C10: `build_params` converts every key from underscore case to camelCase
(first segment kept, later segments capitalized) and every value to a quoted
byte string, provided the camelized keys do not collide. -/
theorem C10_build_params_conversion :
    ∀ params : List (String × PyVal),
      (params.map (fun kv => camelKey kv.1)).Nodup →
      build_params params =
        params.map (fun kv => (camelKey kv.1, quote (pyValToBytes kv.2))) := by
  intro params h
  simpa using build_params_foldl params [] (by simp) h

/-- C10 witness: a concrete parameter dictionary is camelized and quoted. -/
theorem C10_witness :
    build_params [("series_id", PyVal.int 5), ("release_group", PyVal.uni "a b")] =
      [("seriesId", "5"), ("releaseGroup", "a%20b")] :=
  (C10_build_params_conversion
      [("series_id", PyVal.int 5), ("release_group", PyVal.uni "a b")]
      (by decide)).trans (by decide)

end Drone
